import Mathlib

/-!
Verification development for the BatchModeTimeHistory flight-simulation
application.  The definitions below are a shallow embedding of the Python
sources `aircraft_config.py`, `app.py` and `archive/display.py`:

* numeric literals from the source are embedded as exact rationals;
* the Streamlit control flow of `app.py` (weight validation, the
  configuration gate, the V1-cut truncation of the trajectory) is embedded
  as pure functions on the values the widgets produce (Python ints for the
  weight inputs, table rationals for the limits);
* the simulation engine `simulation.py` is not part of the source tree;
  where a claim depends on it, a definition marked
  "Modelled from the spec:" renders the specified behaviour.

All weight values handled by the validation code of `app.py` are Python
ints (the number-input widgets are integer-valued) and every limit in the
configuration table is integer-valued, so the round trip through the
whole-pound string formatting performed by `build_weight_df` /
`is_weight_exceeded` is the identity and the embedding compares the
numbers directly.
-/

/- ------------------------------------------------------------------ -/
/- aircraft_config.py : the AIRCRAFT_CONFIG table                      -/
/- ------------------------------------------------------------------ -/

/-- One entry of `AIRCRAFT_CONFIG`: the (aircraft, mod) key paired with the
flat ordered value tuple, embedded as a list of rationals in source order
(indices 0..34 as documented in `aircraft_config.py`). -/
def AIRCRAFT_CONFIG : List ((String × String) × List ℚ) :=
  [(("CJ", "Flatwing"), [240.0, 46.5, 0.75, 0.0, 0, 0.72, 2, 0.674, 41000.0, 0.2, 4.5, 0.027,
      0.01, 0.015, 0.011, 0.017, 0.015, 0.25, 6500.0, 8400, 10500.0, 10400.0,
      3440.0, 100, 600, 0.7, 263, 1.35, 1.54, 1.75, 0.53, 200, 300, 0.7, 260]),
   (("CJ", "Tamarack"), [250.0, 51.5, 0.8025, 3.0, 0, 0.72, 2, 0.674, 41000.0, 0.2, 4.5, 0.026244,
      0.01, 0.015, 0.011, 0.017, 0.015, 0.25, 6578.65, 8800, 10500.0, 10400.0,
      3440.0, 100, 600, 0.7, 263, 1.4175, 1.617, 1.8375, 0.51, 180, 300, 0.7, 260]),
   (("CJ1", "Flatwing"), [240.0, 46.5, 0.75, 0.0, 0, 0.72, 2, 0.674, 41000.0, 0.2, 4.5, 0.027,
      0.01, 0.015, 0.011, 0.017, 0.015, 0.25, 7250.0, 8400, 10800.0, 10700.0,
      3440.0, 100, 600, 0.7, 263, 1.35, 1.54, 1.75, 0.53, 200, 300, 0.7, 260]),
   (("CJ1", "Tamarack"), [250.0, 51.5, 0.8025, 3.0, 0, 0.72, 2, 0.674, 41000.0, 0.2, 4.5, 0.026244,
      0.01, 0.015, 0.011, 0.017, 0.015, 0.25, 7328.65, 8800, 10800.0, 10700.0,
      3440.0, 100, 600, 0.7, 263, 1.4175, 1.617, 1.8375, 0.51, 180, 300, 0.7, 260]),
   (("CJ1+", "Flatwing"), [240.0, 46.5, 0.75, 0.0, 0, 0.72, 2, 0.697, 41000.0, 0.2, 4.5, 0.027,
      0.01, 0.015, 0.011, 0.017, 0.015, 0.25, 7250.0, 8400, 10900.0, 10800.0,
      3440.0, 100, 600, 0.7, 263, 1.35, 1.54, 1.75, 0.53, 200, 300, 0.7, 260]),
   (("CJ1+", "Tamarack"), [250.0, 51.5, 0.8025, 3.0, 0, 0.72, 2, 0.697, 41000.0, 0.2, 4.5, 0.026244,
      0.01, 0.015, 0.011, 0.017, 0.015, 0.25, 7328.65, 8800, 10900.0, 10800.0,
      3440.0, 100, 600, 0.7, 263, 1.4175, 1.617, 1.8375, 0.51, 180, 300, 0.7, 260]),
   (("CJ2", "Flatwing"), [264.3, 49.8, 0.75, 0.0, 0, 0.72, 2, 0.851, 45000.0, 0.2, 4.5, 0.027,
      0.01, 0.015, 0.011, 0.017, 0.015, 0.25, 7900.0, 9300, 12600.0, 12500.0,
      3961.0, 100, 700, 0.737, 273, 1.35, 1.54, 1.75, 0.737, 273, 800, 0.7, 260]),
   (("CJ2", "Tamarack"), [274.3, 55.3, 0.8025, 3.5, 0, 0.72, 2, 0.851, 45000.0, 0.2, 4.5, 0.026311,
      0.01, 0.015, 0.011, 0.017, 0.015, 0.25, 7979.26, 10100, 12600.0, 12500.0,
      3961.0, 100, 700, 0.737, 273, 1.4175, 1.617, 1.8375, 0.717, 253, 800, 0.7, 260]),
   (("CJ2+", "Flatwing"), [264.3, 49.8, 0.75, 0.0, 0, 0.72, 2, 0.883, 45000.0, 0.2, 4.5, 0.027,
      0.01, 0.015, 0.011, 0.017, 0.015, 0.25, 7900.0, 9700, 12725.0, 12625.0,
      3961.0, 100, 700, 0.737, 273, 1.35, 1.54, 1.75, 0.737, 273, 800, 0.7, 260]),
   (("CJ2+", "Tamarack"), [274.3, 55.3, 0.8025, 3.5, 0, 0.72, 2, 0.883, 45000.0, 0.2, 4.5, 0.026311,
      0.01, 0.015, 0.011, 0.017, 0.015, 0.25, 7979.26, 10100, 12725.0, 12625.0,
      3961.0, 100, 700, 0.737, 273, 1.4175, 1.617, 1.8375, 0.717, 253, 800, 0.7, 260]),
   (("CJ3", "Flatwing"), [294.0, 53.3, 0.75, 0.0, 0, 0.72, 2, 1.0, 45000.0, 0.2, 4.5, 0.027,
      0.01, 0.015, 0.011, 0.017, 0.015, 0.25, 8500.0, 10510, 14170.0, 14070.0,
      4710.0, 100, 800, 0.737, 273, 1.35, 1.54, 1.75, 0.737, 273, 800, 0.7, 260]),
   (("CJ3", "Tamarack"), [304.0, 59.3, 0.8025, 4.5, 0, 0.72, 2, 1.0, 45000.0, 0.2, 4.5, 0.026378,
      0.01, 0.015, 0.011, 0.017, 0.015, 0.25, 8580.2, 10910, 14170.0, 14070.0,
      4710.0, 100, 800, 0.737, 273, 1.4175, 1.617, 1.8375, 0.717, 253, 800, 0.7, 260]),
   (("CJ3+", "Flatwing"), [294.0, 53.3, 0.75, 0.0, 0, 0.72, 2, 1.0, 45000.0, 0.2, 4.5, 0.027,
      0.01, 0.015, 0.011, 0.017, 0.015, 0.25, 8500.0, 10510, 14170.0, 14070.0,
      4710.0, 100, 800, 0.737, 273, 1.35, 1.54, 1.75, 0.737, 273, 800, 0.7, 260]),
   (("CJ3+", "Tamarack"), [304.0, 59.3, 0.8025, 4.5, 0, 0.72, 2, 1.0, 45000.0, 0.2, 4.5, 0.026378,
      0.01, 0.015, 0.011, 0.017, 0.015, 0.25, 8580.2, 10910, 14170.0, 14070.0,
      4710.0, 100, 800, 0.737, 273, 1.4175, 1.617, 1.8375, 0.717, 253, 800, 0.7, 260]),
   (("M2", "Flatwing"), [240.0, 47.0, 0.75, 0.0, 0, 0.72, 2, 0.723, 41000.0, 0.2, 4.5, 0.027,
      0.01, 0.015, 0.011, 0.017, 0.015, 0.25, 8030.0, 8400, 10900.0, 10800.0,
      3296.0, 100, 600, 0.71, 263, 1.35, 1.54, 1.75, 0.53, 200, 300, 0.7, 260]),
   (("M2", "Tamarack"), [250.0, 52.0, 0.8025, 3.0, 0, 0.72, 2, 0.723, 41000.0, 0.2, 4.5, 0.026244,
      0.01, 0.015, 0.011, 0.017, 0.015, 0.25, 8010.0, 8800, 10900.0, 10800.0,
      3296.0, 100, 600, 0.71, 263, 1.4175, 1.617, 1.8375, 0.51, 180, 300, 0.7, 260]),
   (("C208B", "Flatwing"), [279.0, 52.1, 0.80, 0.0, 0, 0.30, 1, 1.00, 25000.0, 0.2, 4.5, 0.032,
      0.010, 0.018, 0.030, 0.020, 0.03, 0.03, 4600.0, 7000.0, 8850.0, 8750.0,
      2200.0, 50.0, 250.0, 0.55, 175.0, 1.6, 2.2, 2.7, 0.30, 110.0, 500, 0.50, 120.0]),
   (("C208B", "Tamarack"), [299.2, 58.1, 0.84, 1.0, 0, 0.30, 1, 1.00, 25000.0, 0.2, 4.5, 0.031,
      0.010, 0.018, 0.030, 0.020, 0.03, 0.03, 4650.0, 7050.0, 8850.0, 8750.0,
      2200.0, 50.0, 250.0, 0.55, 175.0, 1.6, 2.2, 2.7, 0.30, 110.0, 500, 0.50, 120.0]),
   (("C208EX", "Flatwing"), [279.0, 52.1, 0.80, 0.0, 0, 0.30, 1, 1.00, 25000.0, 0.2, 4.5, 0.032,
      0.010, 0.018, 0.030, 0.020, 0.03, 0.03, 5000.0, 7300.0, 9200.0, 9062.0,
      2500.0, 50.0, 300.0, 0.55, 175.0, 1.6, 2.2, 2.7, 0.30, 120.0, 500, 0.50, 120.0]),
   (("C208EX", "Tamarack"), [299.2, 58.1, 0.84, 1.0, 0, 0.30, 1, 1.00, 25000.0, 0.2, 4.5, 0.031,
      0.010, 0.018, 0.030, 0.020, 0.03, 0.03, 5050.0, 7350.0, 9200.0, 9062.0,
      2500.0, 50.0, 300.0, 0.55, 175.0, 1.6, 2.2, 2.7, 0.30, 120.0, 500, 0.50, 120.0]),
   (("C208", "Flatwing"), [279.0, 52.1, 0.80, 0.0, 0, 0.30, 1, 1.00, 25000.0, 0.2, 4.5, 0.032,
      0.010, 0.018, 0.030, 0.020, 0.03, 0.03, 4695.0, 7000.0, 8100.0, 8000.0,
      2000.0, 50.0, 250.0, 0.55, 175.0, 1.6, 2.2, 2.7, 0.30, 110.0, 500, 0.50, 120.0]),
   (("C208", "Tamarack"), [299.2, 58.1, 0.84, 1.0, 0, 0.30, 1, 1.00, 25000.0, 0.2, 4.5, 0.031,
      0.010, 0.018, 0.030, 0.020, 0.03, 0.03, 4745.0, 7050.0, 8100.0, 8000.0,
      2000.0, 50.0, 250.0, 0.55, 175.0, 1.6, 2.2, 2.7, 0.30, 110.0, 500, 0.50, 120.0])]

/-- Field index 18 of a configuration tuple: BOW, per the documentation in
`aircraft_config.py` and the positional decode in `app.py` line 121. -/
def cfgBow (v : List ℚ) : ℚ := v.getD 18 0

/-- Field index 19: MZFW (`app.py` line 120). -/
def cfgMzfw (v : List ℚ) : ℚ := v.getD 19 0

/-- Field index 20: MRW (`app.py` line 122). -/
def cfgMrw (v : List ℚ) : ℚ := v.getD 20 0

/-- Field index 21: MTOW (`app.py` line 123). -/
def cfgMtow (v : List ℚ) : ℚ := v.getD 21 0

/-- Field index 22: maximum fuel capacity (`app.py` line 124). -/
def cfgMaxFuel (v : List ℚ) : ℚ := v.getD 22 0

/-- Field index 23: taxi fuel allowance. -/
def cfgTaxiFuel (v : List ℚ) : ℚ := v.getD 23 0

/-- Field index 24: reserve fuel requirement. -/
def cfgReserveFuel (v : List ℚ) : ℚ := v.getD 24 0

/- ------------------------------------------------------------------ -/
/- aircraft_config.py : the TURBOPROP_PARAMS table                     -/
/- ------------------------------------------------------------------ -/

/-- Per-model turboprop engine/prop parameters, from `TURBOPROP_PARAMS` in
`aircraft_config.py`. -/
structure TurbopropParams where
  P_rated_shp : ℚ
  prop_diameter_ft : ℚ
  prop_rpm : ℚ
  SSFC_lb_per_shp_hr : ℚ
  alpha_lapse : ℚ
  eta_curve_J : List ℚ
  eta_curve_eta : List ℚ
  rpm_by_segment : List (Nat × ℚ)
  C_T0 : ℚ
deriving DecidableEq

/-- The `TURBOPROP_PARAMS` dictionary of `aircraft_config.py`. -/
def TURBOPROP_PARAMS : List (String × TurbopropParams) :=
  [("C208B",
    { P_rated_shp := 675.0
      prop_diameter_ft := 10.8333
      prop_rpm := 1900.0
      SSFC_lb_per_shp_hr := 0.6
      alpha_lapse := 0.60
      eta_curve_J := [0.00, 0.29, 0.53, 0.64, 0.83, 0.85, 0.96, 1.20]
      eta_curve_eta := [0.00, 0.55, 0.75, 0.80, 0.83, 0.84, 0.81, 0.70]
      rpm_by_segment := [(0, 2200), (1, 2200), (2, 2000), (3, 2000), (4, 2000), (5, 2000),
        (6, 1600), (7, 1600), (11, 1600), (12, 1600)]
      C_T0 := 0.118 }),
   ("C208EX",
    { P_rated_shp := 867.0
      prop_diameter_ft := 8.5
      prop_rpm := 1900.0
      SSFC_lb_per_shp_hr := 0.6
      alpha_lapse := 0.60
      eta_curve_J := [0.00, 0.28, 0.59, 0.71, 0.95, 0.98, 1.03, 1.20]
      eta_curve_eta := [0.00, 0.55, 0.76, 0.81, 0.83, 0.82, 0.80, 0.70]
      rpm_by_segment := [(0, 2200), (1, 2200), (2, 2000), (3, 2000), (4, 2000), (5, 2000),
        (6, 1900), (7, 1900), (11, 1900), (12, 1900)]
      C_T0 := 0.177 }),
   ("C208",
    { P_rated_shp := 675.0
      prop_diameter_ft := 10.8333
      prop_rpm := 1900.0
      SSFC_lb_per_shp_hr := 0.6
      alpha_lapse := 0.60
      eta_curve_J := [0.00, 0.29, 0.53, 0.64, 0.83, 0.85, 0.96, 1.20]
      eta_curve_eta := [0.00, 0.55, 0.75, 0.80, 0.83, 0.84, 0.81, 0.70]
      rpm_by_segment := [(0, 2200), (1, 2200), (2, 2000), (3, 2000), (4, 2000), (5, 2000),
        (6, 1600), (7, 1600), (11, 1600), (12, 1600)]
      C_T0 := 0.118 })]

/- ------------------------------------------------------------------ -/
/- app.py : weight summary and validation (lines 540-756)              -/
/- ------------------------------------------------------------------ -/

/-- One row of the weight-status table built by `build_weight_df` in
`app.py` (lines 619-647): a component name, the computed weight and the
optional maximum.  The source stores both as whole-pound formatted strings
and parses them back with `float`; all weights entering the table are
Python ints and every limit in the configuration table is integer-valued,
so the round trip is the identity and the row carries the numbers. -/
structure WeightRow where
  component : String
  weight : ℚ
  maxWeight : Option ℚ
deriving DecidableEq

/-- The weight summary dictionary assembled in `app.py` (lines 570-586 for
Flatwing, 597-613 for Tamarack).  The first nine fields are Python ints
(the number-input widgets are integer-valued and the derived weights are
integer arithmetic on them); the limits come from the configuration
table. -/
structure WeightSummary where
  bow : ℤ
  payload : ℤ
  fuel : ℤ
  reserve_fuel : ℤ
  taxi_fuel : ℤ
  mission_fuel : ℤ
  zfw : ℤ
  rw : ℤ
  tow : ℤ
  max_payload : ℚ
  mzfw : ℚ
  mrw : ℚ
  mtow : ℚ
  max_fuel : ℚ
deriving DecidableEq

/-- `build_weight_df` from `app.py` (lines 619-647): the nine rows of the
weight-status table in source order; components without a limit have an
empty maximum column. -/
def build_weight_df (s : WeightSummary) : List WeightRow :=
  [{ component := "BOW", weight := (s.bow : ℚ), maxWeight := none },
   { component := "Payload", weight := (s.payload : ℚ), maxWeight := some s.max_payload },
   { component := "Initial Fuel", weight := (s.fuel : ℚ), maxWeight := some s.max_fuel },
   { component := "Reserve Fuel", weight := (s.reserve_fuel : ℚ), maxWeight := none },
   { component := "Taxi Fuel", weight := (s.taxi_fuel : ℚ), maxWeight := none },
   { component := "Mission Fuel", weight := (s.mission_fuel : ℚ), maxWeight := none },
   { component := "ZFW", weight := (s.zfw : ℚ), maxWeight := some s.mzfw },
   { component := "Ramp Weight", weight := (s.rw : ℚ), maxWeight := some s.mrw },
   { component := "Takeoff Weight", weight := (s.tow : ℚ), maxWeight := some s.mtow }]

/-- `is_weight_exceeded` from `app.py` (lines 661-670): a row is exceeded
when it has a maximum and the weight is strictly greater than it. -/
def is_weight_exceeded (r : WeightRow) : Bool :=
  match r.maxWeight with
  | some mw => decide (mw < r.weight)
  | none => false

/-- One reported weight violation, as emitted by the error loop of
`app.py` (lines 707-715): the component name, the actual weight, the limit
and the excess amount. -/
structure Violation where
  component : String
  weight : ℚ
  maxWeight : ℚ
  excess : ℚ
deriving DecidableEq

/-- The violation a single row contributes to the error loop of `app.py`
(lines 709-715): rows with a maximum and a weight strictly above it yield
the component name, the actual value, the limit and the excess. -/
def rowViolation (r : WeightRow) : Option Violation :=
  match r.maxWeight with
  | some mw => if mw < r.weight then some ⟨r.component, r.weight, mw, r.weight - mw⟩ else none
  | none => none

/-- The list of violations surfaced by the error loop of `app.py`
(lines 707-715): every row with a maximum whose weight strictly exceeds
it, with the actual value, the limit and the excess. -/
def violationList (df : List WeightRow) : List Violation :=
  df.filterMap rowViolation

/-- Outcome of the validation block of `app.py`: either the script stops
(`st.stop`, lines 699/716) surfacing the violation list, or
`run_simulation` is invoked with the payload and fuel values selected at
lines 540-556. -/
inductive RunOutcome where
  | stopped (violations : List Violation)
  | ran (payload fuel : ℤ)
deriving DecidableEq

/-- The Flatwing weight summary of `app.py` lines 563-586. -/
def mkFlatwingSummary (flatwing_mzfw mrw mtow max_fuel : ℚ)
    (bow_f payload_input_f fuel_input_f reserve_fuel_f taxi_fuel_f : ℤ) : WeightSummary :=
  let zfw_f := bow_f + payload_input_f
  let rw_f := zfw_f + fuel_input_f
  let tow_f := rw_f - taxi_fuel_f
  let mission_fuel_f := fuel_input_f - reserve_fuel_f - taxi_fuel_f
  let fw_max_payload := max 0 (flatwing_mzfw - (bow_f : ℚ))
  { bow := bow_f, payload := payload_input_f, fuel := fuel_input_f,
    reserve_fuel := reserve_fuel_f, taxi_fuel := taxi_fuel_f,
    mission_fuel := mission_fuel_f, zfw := zfw_f, rw := rw_f, tow := tow_f,
    max_payload := fw_max_payload, mzfw := flatwing_mzfw, mrw := mrw,
    mtow := mtow, max_fuel := max_fuel }

/-- The Flatwing weight table as assembled by the run flow of `app.py`
(summary at lines 563-586, table at 619-647). -/
def flatwingDf (flatwing_mzfw mrw mtow max_fuel : ℚ)
    (bow_f payload_input_f fuel_input_f reserve_fuel_f taxi_fuel_f : ℤ) : List WeightRow :=
  build_weight_df (mkFlatwingSummary flatwing_mzfw mrw mtow max_fuel
    bow_f payload_input_f fuel_input_f reserve_fuel_f taxi_fuel_f)

/-- The Flatwing run flow of `app.py`: capture of the simulation inputs
(lines 546-548), summary construction (563-586), the weight check and
violation listing (700-716), and the `run_simulation` call (743-748). -/
def appRunFlatwing (flatwing_mzfw mrw mtow max_fuel : ℚ)
    (bow_f payload_input_f fuel_input_f reserve_fuel_f taxi_fuel_f : ℤ) : RunOutcome :=
  let payload_f := payload_input_f
  let fuel_f := fuel_input_f
  let s := mkFlatwingSummary flatwing_mzfw mrw mtow max_fuel
    bow_f payload_input_f fuel_input_f reserve_fuel_f taxi_fuel_f
  let df := build_weight_df s
  if df.any is_weight_exceeded then RunOutcome.stopped (violationList df)
  else RunOutcome.ran payload_f fuel_f

/-- The Tamarack run flow of `app.py`: capture of the simulation inputs
`payload_t`/`fuel_t` at lines 552-556 (BEFORE the clamp below), the clamp
of `payload_input_t` to `max(0, tamarack_mzfw - tamarack_bow)` at lines
589-592 (Python `int()` truncation; the bound is nonnegative, so the floor
agrees with it), summary construction (593-613), the weight check and
violation listing (700-716), and the `run_simulation` call (737-742),
which receives the pre-clamp `payload_t`.  `tamarack_bow` is the BOW field
of the configuration tuple (line 121); `bow_t` is the BOW widget value. -/
def appRunTamarack (tamarack_mzfw tamarack_bow tamarack_mrw tamarack_mtow tamarack_max_fuel : ℚ)
    (bow_t payload_input_t fuel_input_t reserve_fuel_t taxi_fuel_t : ℤ) : RunOutcome :=
  let payload_t := payload_input_t
  let fuel_t := fuel_input_t
  let max_payload_t : ℚ := max 0 (tamarack_mzfw - tamarack_bow)
  let payload_clamped : ℤ :=
    if max_payload_t < (payload_input_t : ℚ) then ⌊max_payload_t⌋ else payload_input_t
  let zfw_t := bow_t + payload_clamped
  let rw_t := zfw_t + fuel_input_t
  let tow_t := rw_t - taxi_fuel_t
  let mission_fuel_t := fuel_input_t - reserve_fuel_t - taxi_fuel_t
  let s : WeightSummary :=
    { bow := bow_t, payload := payload_clamped, fuel := fuel_input_t,
      reserve_fuel := reserve_fuel_t, taxi_fuel := taxi_fuel_t,
      mission_fuel := mission_fuel_t, zfw := zfw_t, rw := rw_t, tow := tow_t,
      max_payload := max_payload_t, mzfw := tamarack_mzfw, mrw := tamarack_mrw,
      mtow := tamarack_mtow, max_fuel := tamarack_max_fuel }
  let df := build_weight_df s
  if df.any is_weight_exceeded then RunOutcome.stopped (violationList df)
  else RunOutcome.ran payload_t fuel_t

/- ------------------------------------------------------------------ -/
/- app.py : the configuration gate (lines 91-103, 455-458, 724-748)    -/
/- ------------------------------------------------------------------ -/

/-- The wing-type radio selection of `app.py` line 455. -/
inductive WingType where
  | flatwing
  | tamarack
  | comparison
deriving DecidableEq

/-- The radio label of a wing type, as compared against `mods_available`
at `app.py` line 456. -/
def wingName : WingType → String
  | WingType.flatwing => "Flatwing"
  | WingType.tamarack => "Tamarack"
  | WingType.comparison => "Comparison"

/-- Outcome of the configuration gate of `app.py`: either the script
stops with an error (`st.stop` at lines 94, 100, 458) before any
simulation, or `run_simulation` is invoked for the listed
(model, wing-variant) pairs (lines 724-748). -/
inductive GateResult where
  | stop (msg : String)
  | run (sims : List (String × String))
deriving DecidableEq

/-- `mods_available` from `app.py` line 91: the wing variants the
configuration table holds for the selected model. -/
def mods_available (table : List ((String × String) × List ℚ)) (model : String) :
    List String :=
  (table.filter fun e => e.1.1 = model).map fun e => e.1.2

/-- The configuration gate of `app.py`, parameterised by the table so that
behaviour on missing keys can be stated: stop when the model has no
variants (lines 92-94) or no Flatwing entry (lines 97-100); stop when a
directly selected wing type is not among the available variants
(lines 456-458); otherwise invoke `run_simulation` per wing type
(lines 724-748), in comparison mode only for the variants present. -/
def configGate (table : List ((String × String) × List ℚ)) (model : String)
    (wing : WingType) : GateResult :=
  let mods := mods_available table model
  if mods.isEmpty then GateResult.stop "No modifications available" else
  match table.find? fun e => e.1 = (model, "Flatwing") with
  | none => GateResult.stop "No Flatwing configuration found"
  | some _ =>
    if wing ≠ WingType.comparison ∧ wingName wing ∉ mods then
      GateResult.stop "Wing type is not available"
    else
      match wing with
      | WingType.comparison =>
          GateResult.run ((if "Tamarack" ∈ mods then [(model, "Tamarack")] else []) ++
            (if "Flatwing" ∈ mods then [(model, "Flatwing")] else []))
      | WingType.tamarack => GateResult.run [(model, "Tamarack")]
      | WingType.flatwing => GateResult.run [(model, "Flatwing")]

/- ------------------------------------------------------------------ -/
/- archive/display.py : winds/temps lookup and the results display     -/
/- ------------------------------------------------------------------ -/

/-- The `winds_temps_data` dictionary built inside
`display_simulation_results` (`archive/display.py` lines 870-886): per
source name, altitude-keyed (direction, speed, temperature) rows. -/
def winds_temps_data : List (String × List (ℤ × ℤ × ℤ × ℤ)) :=
  [("Current Conditions",
    [(18000, 310, 30, -20), (30000, 310, 40, -35), (39000, 310, 50, -45)]),
   ("Summer Average",
    [(18000, 270, 15, -10), (30000, 270, 20, -25), (39000, 270, 25, -30)]),
   ("Winter Average",
    [(18000, 320, 35, -25), (30000, 320, 45, -40), (39000, 320, 55, -50)])]

/-- The unguarded dictionary subscript
`winds_temps_data[winds_temps_source]` at `archive/display.py` line 887:
a key outside the dictionary raises KeyError, modelled as the error
case. -/
def selectedWindsTemps (winds_temps_source : String) :
    Except String (List (ℤ × ℤ × ℤ × ℤ)) :=
  match winds_temps_data.find? fun e => e.1 = winds_temps_source with
  | some e => Except.ok e.2
  | none => Except.error "KeyError"

/-- The wind-source radio options of `app.py` lines 465-468; index 0 is
the default selection on first load. -/
def winds_temps_source_options : List String :=
  ["No Wind", "Current Conditions", "Summer Average", "Winter Average"]

/-- The application's default wind source (`index=0` at `app.py`
line 467). -/
def default_winds_temps_source : String := winds_temps_source_options.getD 0 ""

/-- The per-configuration sections rendered by
`display_simulation_results` (`archive/display.py` lines 1049-1141 and
1147-1238). -/
inductive DisplaySection where
  | takeoff
  | v1cut
  | climb
  | cruise
  | descent
  | landing
  | totalFlight
deriving DecidableEq

/-- The section list rendered per configuration by
`display_simulation_results`: after the Takeoff section, a results
mapping whose "V1 Cut" entry is truthy renders the V1 Cut section and
nothing further (`archive/display.py` lines 1075-1078), while otherwise
the climb, cruise, descent, landing and total-flight sections follow
(lines 1079-1141). -/
def displayedSections (v1CutMarker : Bool) : List DisplaySection :=
  if v1CutMarker then [DisplaySection.takeoff, DisplaySection.v1cut]
  else [DisplaySection.takeoff, DisplaySection.climb, DisplaySection.cruise,
    DisplaySection.descent, DisplaySection.landing, DisplaySection.totalFlight]

/- ------------------------------------------------------------------ -/
/- Trajectory samples, the V1-cut truncation, and the modelled engine  -/
/- ------------------------------------------------------------------ -/

/-- One row of the trajectory DataFrame as used by the V1-cut truncation
of `app.py` lines 750-756 (only the Segment column is consulted) and by
the modelled engine: segment id, fuel remaining, and position. -/
structure TrajSample where
  seg : ℤ
  fuel : ℚ
  lat : ℚ
  lon : ℚ
deriving DecidableEq

/-- The positional indices of the trajectory rows whose Segment column is
3 — `data[data['Segment'] == 3].index` at `app.py` lines 752/755 (the
frame carries the default integer range index). -/
def seg3Indices (data : List TrajSample) : List Nat :=
  (List.range data.length).filter fun i =>
    (data.get? i).any fun s => decide (s.seg = 3)

/-- `end_idx` of `app.py` lines 752/755: the last Segment-3 index, or 0
when there is none. -/
def v1CutEndIdx (data : List TrajSample) : Nat :=
  (seg3Indices data).getLast?.getD 0

/-- The V1-cut truncation of `app.py` lines 750-756: nonempty data is cut
to rows 0..end_idx (`iloc[:end_idx + 1]`). -/
def v1CutTruncate (data : List TrajSample) : List TrajSample :=
  if data.isEmpty then data else data.take (v1CutEndIdx data + 1)

/-- `app.py` lines 750-756: the trajectory handed to the display layer is
the V1-cut truncation when the flag is set, the full data otherwise. -/
def displayedTrajectory (v1_cut_enabled : Bool) (data : List TrajSample) :
    List TrajSample :=
  if v1_cut_enabled then v1CutTruncate data else data

/-- Modelled from the spec: the ResultsSummary fields relevant to the
engine-out scenario, produced by `run_simulation` in `simulation.py`,
which is absent from src/.  Spec section 8: with the engine-out flag set,
the "V1 Cut" marker is present and no climb/cruise/descent metrics are
populated. -/
structure EngineResults where
  v1Cut : Bool
  climbMetrics : Option ℚ
  cruiseMetrics : Option ℚ
  descentMetrics : Option ℚ
deriving DecidableEq

/-- Modelled from the spec: the ResultsSummary returned by
`run_simulation` (`simulation.py`, absent from src/) as a function of the
engine-out flag; the metric arguments stand for whatever values a
completed run records. -/
def specResultsSummary (v1_cut_enabled : Bool) (climbM cruiseM descentM : ℚ) :
    EngineResults :=
  if v1_cut_enabled then ⟨true, none, none, none⟩
  else ⟨false, some climbM, some cruiseM, some descentM⟩

/-- One integration step of the modelled engine: the segment id it
samples into, the fuel burned over the step, and the position
increment. -/
structure SimStep where
  seg : ℤ
  burn : ℚ
  dlat : ℚ
  dlon : ℚ
deriving DecidableEq

/-- Outcome of a modelled run: a completed trajectory, or a
fuel-exhaustion result carrying the last valid position together with the
trajectory accumulated so far. -/
inductive SimOutcome where
  | completed (traj : List TrajSample)
  | fuelExhausted (lastLat lastLon : ℚ) (traj : List TrajSample)
deriving DecidableEq

/-- Modelled from the spec: the integrator loop of `run_simulation`
(`simulation.py`, absent from src/).  Spec sections 4.5, 7(d) and 8: fuel
reaching the reserve+taxi threshold before the steps finish ends the run
early with a fuel-exhaustion result carrying the last valid position;
otherwise each step appends a sample at the decremented fuel.  The
accumulator holds the samples emitted so far, newest first. -/
def specIntegrate (threshold : ℚ) :
    ℚ → ℚ → ℚ → List SimStep → List TrajSample → SimOutcome
  | _, _, _, [], acc => SimOutcome.completed acc.reverse
  | fuel, lat, lon, step :: steps, acc =>
    if fuel - step.burn ≤ threshold then SimOutcome.fuelExhausted lat lon acc.reverse
    else specIntegrate threshold (fuel - step.burn) (lat + step.dlat) (lon + step.dlon)
      steps (⟨step.seg, fuel - step.burn, lat + step.dlat, lon + step.dlon⟩ :: acc)

/-- Modelled from the spec: a run samples the initial state and then
integrates the steps. -/
def specRun (threshold fuel lat lon : ℚ) (steps : List SimStep) : SimOutcome :=
  specIntegrate threshold fuel lat lon steps [⟨0, fuel, lat, lon⟩]

/-- The trajectory carried by either outcome. -/
def simTraj : SimOutcome → List TrajSample
  | SimOutcome.completed t => t
  | SimOutcome.fuelExhausted _ _ t => t

/- ------------------------------------------------------------------ -/
/- Claim theorems over the static tables                               -/
/- ------------------------------------------------------------------ -/

/-- C7: every value of `AIRCRAFT_CONFIG` is a flat ordered tuple of exactly
35 fields, so the positional 35-way unpacking in `app.py` (lines 106-124)
never fails; and reading indices 18..22 as (BOW, MZFW, MRW, MTOW, max_fuel),
as the documentation and the positional decode state, is consistent for
every entry: BOW ≤ MZFW ≤ MTOW ≤ MRW with a positive max_fuel. -/
theorem aircraft_config_tuple_shape :
    ∀ e ∈ AIRCRAFT_CONFIG, e.2.length = 35 ∧
      cfgBow e.2 ≤ cfgMzfw e.2 ∧ cfgMzfw e.2 ≤ cfgMtow e.2 ∧
      cfgMtow e.2 ≤ cfgMrw e.2 ∧ 0 < cfgMaxFuel e.2 := by
  simp only [AIRCRAFT_CONFIG, List.forall_mem_cons, List.forall_mem_nil, and_true,
    cfgBow, cfgMzfw, cfgMrw, cfgMtow, cfgMaxFuel,
    List.getD_cons_zero, List.getD_cons_succ, List.length_cons, List.length_nil]
  norm_num

/-- C9: for every (model, wing-variant) entry of `AIRCRAFT_CONFIG` the
weight limits are consistently ordered, BOW ≤ MZFW ≤ MTOW ≤ MRW, and the
fuel allowances satisfy taxi_fuel + reserve_fuel ≤ max_fuel. -/
theorem aircraft_config_limits_ordered :
    ∀ e ∈ AIRCRAFT_CONFIG,
      cfgBow e.2 ≤ cfgMzfw e.2 ∧ cfgMzfw e.2 ≤ cfgMtow e.2 ∧
      cfgMtow e.2 ≤ cfgMrw e.2 ∧
      cfgTaxiFuel e.2 + cfgReserveFuel e.2 ≤ cfgMaxFuel e.2 := by
  simp only [AIRCRAFT_CONFIG, List.forall_mem_cons, List.forall_mem_nil, and_true,
    cfgBow, cfgMzfw, cfgMrw, cfgMtow, cfgMaxFuel, cfgTaxiFuel, cfgReserveFuel,
    List.getD_cons_zero, List.getD_cons_succ]
  norm_num

/-- C10: for every model of `TURBOPROP_PARAMS`, the propeller-efficiency
breakpoint arrays have equal length, the advance-ratio breakpoints are
strictly increasing, and every efficiency value lies in [0, 1]. -/
theorem turboprop_eta_curves_wellformed :
    ∀ p ∈ TURBOPROP_PARAMS,
      p.2.eta_curve_J.length = p.2.eta_curve_eta.length ∧
      p.2.eta_curve_J.Chain' (fun a b => a < b) ∧
      ∀ x ∈ p.2.eta_curve_eta, 0 ≤ x ∧ x ≤ 1 := by
  simp only [TURBOPROP_PARAMS, List.forall_mem_cons, List.forall_mem_nil, and_true]
  norm_num [List.chain'_cons]

/- ------------------------------------------------------------------ -/
/- Helper lemmas about the violation list                              -/
/- ------------------------------------------------------------------ -/

/-- A row with a maximum strictly below its weight contributes its
violation to the surfaced list. -/
theorem mem_violationList {df : List WeightRow} {r : WeightRow} {mw : ℚ}
    (hr : r ∈ df) (hmax : r.maxWeight = some mw) (hlt : mw < r.weight) :
    Violation.mk r.component r.weight mw (r.weight - mw) ∈ violationList df := by
  refine List.mem_filterMap.mpr ⟨r, hr, ?_⟩
  simp [rowViolation, hmax, if_pos hlt]

/-- The surfaced violation list is empty exactly when the weight check of
`app.py` reports no exceeded row. -/
theorem violationList_nil_iff (df : List WeightRow) :
    violationList df = [] ↔ df.any is_weight_exceeded = false := by
  induction df with
  | nil => simp [violationList]
  | cons r l ih =>
    unfold violationList at ih ⊢
    rw [List.filterMap_cons]
    cases h : r.maxWeight with
    | none => simp [rowViolation, is_weight_exceeded, h, ih]
    | some mw =>
      by_cases hlt : mw < r.weight
      · simp [rowViolation, is_weight_exceeded, h, hlt]
      · simp [rowViolation, is_weight_exceeded, h, hlt, ih]

/-- Every component name occurring in the surfaced list comes from a row
of the table that the weight check reports as exceeded. -/
theorem component_mem_violationList {df : List WeightRow} {c : String}
    (h : c ∈ (violationList df).map Violation.component) :
    ∃ r ∈ df, r.component = c ∧ is_weight_exceeded r = true := by
  obtain ⟨v, hv, hc⟩ := List.mem_map.mp h
  obtain ⟨r, hr, hrv⟩ := List.mem_filterMap.mp hv
  refine ⟨r, hr, ?_, ?_⟩
  · cases hmax : r.maxWeight with
    | none => simp [rowViolation, hmax] at hrv
    | some mw =>
      by_cases hlt : mw < r.weight
      · simp [rowViolation, hmax, hlt] at hrv
        rw [← hrv] at hc
        exact hc
      · simp [rowViolation, hmax, hlt] at hrv
  · cases hmax : r.maxWeight with
    | none => simp [rowViolation, hmax] at hrv
    | some mw =>
      by_cases hlt : mw < r.weight
      · simp [is_weight_exceeded, hmax, hlt]
      · simp [rowViolation, hmax, hlt] at hrv

/-- Case analysis of the Flatwing run flow: either no violation is
surfaced and `run_simulation` receives the captured payload and fuel, or
the violation list is nonempty and the script stops with it. -/
theorem appRunFlatwing_cases (mzfw mrw mtow mf : ℚ) (bow payload fuel res taxi : ℤ) :
    (violationList (flatwingDf mzfw mrw mtow mf bow payload fuel res taxi) = [] ∧
       appRunFlatwing mzfw mrw mtow mf bow payload fuel res taxi =
         RunOutcome.ran payload fuel) ∨
    (violationList (flatwingDf mzfw mrw mtow mf bow payload fuel res taxi) ≠ [] ∧
       appRunFlatwing mzfw mrw mtow mf bow payload fuel res taxi =
         RunOutcome.stopped (violationList (flatwingDf mzfw mrw mtow mf bow payload fuel res taxi))) := by
  cases hb : (flatwingDf mzfw mrw mtow mf bow payload fuel res taxi).any is_weight_exceeded with
  | false =>
    left
    refine ⟨(violationList_nil_iff _).mpr hb, ?_⟩
    simp only [flatwingDf] at hb
    simp only [appRunFlatwing]
    simp [hb]
  | true =>
    right
    constructor
    · intro h0
      rw [violationList_nil_iff] at h0
      simp [hb] at h0
    · simp only [flatwingDf] at hb ⊢
      simp only [appRunFlatwing]
      simp [hb]

/-- C5: whenever a computed weight exceeds its limit (zero-fuel weight
over MZFW, ramp weight over MRW, takeoff weight over MTOW), the
corresponding violation, with actual value and limit, appears in the
surfaced violation list and the script stops with that list before
`run_simulation` is called; `run_simulation` is invoked only when the
violation list is empty. -/
theorem weight_violations_block_simulation (mzfw mrw mtow mf : ℚ)
    (bow payload fuel res taxi : ℤ) :
    (violationList (flatwingDf mzfw mrw mtow mf bow payload fuel res taxi) ≠ [] →
      appRunFlatwing mzfw mrw mtow mf bow payload fuel res taxi =
        RunOutcome.stopped (violationList (flatwingDf mzfw mrw mtow mf bow payload fuel res taxi))) ∧
    (∀ p f, appRunFlatwing mzfw mrw mtow mf bow payload fuel res taxi = RunOutcome.ran p f →
      violationList (flatwingDf mzfw mrw mtow mf bow payload fuel res taxi) = []) ∧
    (mzfw < ((bow + payload : ℤ) : ℚ) →
      Violation.mk "ZFW" ((bow + payload : ℤ) : ℚ) mzfw (((bow + payload : ℤ) : ℚ) - mzfw) ∈
        violationList (flatwingDf mzfw mrw mtow mf bow payload fuel res taxi)) ∧
    (mrw < ((bow + payload + fuel : ℤ) : ℚ) →
      Violation.mk "Ramp Weight" ((bow + payload + fuel : ℤ) : ℚ) mrw
          (((bow + payload + fuel : ℤ) : ℚ) - mrw) ∈
        violationList (flatwingDf mzfw mrw mtow mf bow payload fuel res taxi)) ∧
    (mtow < ((bow + payload + fuel - taxi : ℤ) : ℚ) →
      Violation.mk "Takeoff Weight" ((bow + payload + fuel - taxi : ℤ) : ℚ) mtow
          (((bow + payload + fuel - taxi : ℤ) : ℚ) - mtow) ∈
        violationList (flatwingDf mzfw mrw mtow mf bow payload fuel res taxi)) := by
  refine ⟨?_, ?_, ?_, ?_, ?_⟩
  · intro h
    rcases appRunFlatwing_cases mzfw mrw mtow mf bow payload fuel res taxi with ⟨h0, _⟩ | ⟨_, h1⟩
    · exact absurd h0 h
    · exact h1
  · intro p f h
    rcases appRunFlatwing_cases mzfw mrw mtow mf bow payload fuel res taxi with ⟨h0, _⟩ | ⟨_, h1⟩
    · exact h0
    · rw [h1] at h
      exact absurd h (by simp)
  · intro h
    exact @mem_violationList
      (flatwingDf mzfw mrw mtow mf bow payload fuel res taxi)
      ⟨"ZFW", ((bow + payload : ℤ) : ℚ), some mzfw⟩ mzfw
      (by simp [flatwingDf, build_weight_df, mkFlatwingSummary]) rfl h
  · intro h
    exact @mem_violationList
      (flatwingDf mzfw mrw mtow mf bow payload fuel res taxi)
      ⟨"Ramp Weight", ((bow + payload + fuel : ℤ) : ℚ), some mrw⟩ mrw
      (by simp [flatwingDf, build_weight_df, mkFlatwingSummary]) rfl h
  · intro h
    exact @mem_violationList
      (flatwingDf mzfw mrw mtow mf bow payload fuel res taxi)
      ⟨"Takeoff Weight", ((bow + payload + fuel - taxi : ℤ) : ℚ), some mtow⟩ mtow
      (by simp [flatwingDf, build_weight_df, mkFlatwingSummary]) rfl h

/-- Witness for C5: with the CJ Flatwing limits, a 2000 lb payload at
6500 lb BOW puts ZFW at 8500 lb over the 8400 lb MZFW, the ZFW violation
is surfaced and the run stops; with zero payload the same inputs produce
no violation. -/
theorem weight_violations_block_simulation_witness :
    (8400 : ℚ) < ((6500 + 2000 : ℤ) : ℚ) ∧
    Violation.mk "ZFW" ((6500 + 2000 : ℤ) : ℚ) 8400 (((6500 + 2000 : ℤ) : ℚ) - 8400) ∈
      violationList (flatwingDf 8400 10500 10400 3440 6500 2000 3440 600 100) ∧
    appRunFlatwing 8400 10500 10400 3440 6500 2000 3440 600 100 =
      RunOutcome.stopped (violationList (flatwingDf 8400 10500 10400 3440 6500 2000 3440 600 100)) ∧
    violationList (flatwingDf 8400 10500 10400 3440 6500 0 3440 600 100) = [] := by
  have h1 := weight_violations_block_simulation 8400 10500 10400 3440 6500 2000 3440 600 100
  have h2 := weight_violations_block_simulation 8400 10500 10400 3440 6500 0 3440 600 100
  have hz : (8400 : ℚ) < ((6500 + 2000 : ℤ) : ℚ) := by norm_num
  have hmem := h1.2.2.1 hz
  refine ⟨hz, hmem, h1.1 (List.ne_nil_of_mem hmem), h2.2.1 0 3440 ?_⟩
  simp only [appRunFlatwing]
  norm_num [build_weight_df, mkFlatwingSummary, is_weight_exceeded, List.any_cons, List.any_nil]

/-- C3: an initial fuel equal to the configured maximum passes the weight
check (the comparison is strict), while a fuel value strictly above the
maximum produces a surfaced violation naming the component
"Initial Fuel" together with the limit, and the run stops before
`run_simulation`. -/
theorem fuel_boundary_strict (mzfw mrw mtow mf : ℚ) (bow payload fuel res taxi : ℤ) :
    ((fuel : ℚ) = mf →
      "Initial Fuel" ∉
        (violationList (flatwingDf mzfw mrw mtow mf bow payload fuel res taxi)).map
          Violation.component) ∧
    (mf < (fuel : ℚ) →
      Violation.mk "Initial Fuel" (fuel : ℚ) mf ((fuel : ℚ) - mf) ∈
          violationList (flatwingDf mzfw mrw mtow mf bow payload fuel res taxi) ∧
      appRunFlatwing mzfw mrw mtow mf bow payload fuel res taxi =
        RunOutcome.stopped (violationList (flatwingDf mzfw mrw mtow mf bow payload fuel res taxi))) := by
  constructor
  · intro heq hmem
    obtain ⟨r, hr, hcomp, hexc⟩ := component_mem_violationList hmem
    simp only [flatwingDf, build_weight_df, mkFlatwingSummary, List.mem_cons,
      List.not_mem_nil, or_false] at hr
    rcases hr with rfl | rfl | rfl | rfl | rfl | rfl | rfl | rfl | rfl
    · simp at hcomp
    · simp at hcomp
    · simp only [is_weight_exceeded, decide_eq_true_eq] at hexc
      rw [heq] at hexc
      exact absurd hexc (lt_irrefl mf)
    · simp at hcomp
    · simp at hcomp
    · simp at hcomp
    · simp at hcomp
    · simp at hcomp
    · simp at hcomp
  · intro hlt
    have hmem := @mem_violationList
      (flatwingDf mzfw mrw mtow mf bow payload fuel res taxi)
      ⟨"Initial Fuel", (fuel : ℚ), some mf⟩ mf
      (by simp [flatwingDf, build_weight_df, mkFlatwingSummary]) rfl hlt
    refine ⟨hmem, ?_⟩
    rcases appRunFlatwing_cases mzfw mrw mtow mf bow payload fuel res taxi with ⟨h0, _⟩ | ⟨_, h1⟩
    · rw [h0] at hmem
      exact absurd hmem (List.not_mem_nil _)
    · exact h1

/-- Witness for C3: CJ Flatwing limits, fuel exactly 3440 lb (the maximum)
passes with no fuel violation; fuel 3441 lb is surfaced as an
"Initial Fuel" violation against the 3440 lb limit and the run stops. -/
theorem fuel_boundary_strict_witness :
    ("Initial Fuel" ∉
      (violationList (flatwingDf 8400 10500 10400 3440 6500 0 3440 600 100)).map
        Violation.component) ∧
    (Violation.mk "Initial Fuel" ((3441 : ℤ) : ℚ) 3440 (((3441 : ℤ) : ℚ) - 3440) ∈
        violationList (flatwingDf 8400 10500 10400 3440 6500 0 3441 600 100) ∧
      appRunFlatwing 8400 10500 10400 3440 6500 0 3441 600 100 =
        RunOutcome.stopped (violationList (flatwingDf 8400 10500 10400 3440 6500 0 3441 600 100))) :=
  ⟨(fuel_boundary_strict 8400 10500 10400 3440 6500 0 3440 600 100).1 (by norm_num),
   (fuel_boundary_strict 8400 10500 10400 3440 6500 0 3441 600 100).2 (by norm_num)⟩

/-- C4 (code bug): with the M2 Tamarack configuration
(MZFW 8800 lb, configuration BOW 8010 lb, MRW 10900 lb, MTOW 10800 lb,
max fuel 3296 lb), a Tamarack BOW widget value of 7065 lb and a payload
input of 1000 lb — which exceeds MZFW − BOW = 790 lb — the run flow of
`app.py` reports no violation and invokes `run_simulation` with the
unclamped 1000 lb payload: the clamp at lines 591-592 only rewrites the
weight summary, after the simulation payload was captured at line 555. -/
theorem tamarack_payload_over_limit_runs :
    (8800 : ℚ) - 8010 < ((1000 : ℤ) : ℚ) ∧
    appRunTamarack 8800 8010 10900 10800 3296 7065 1000 1000 600 100 =
      RunOutcome.ran 1000 1000 := by
  constructor
  · norm_num
  · simp only [appRunTamarack]
    norm_num [build_weight_df, is_weight_exceeded, List.any_cons, List.any_nil]

/-- A variant is listed in `mods_available` exactly when the table holds
the (model, variant) key. -/
theorem mem_mods_available {table : List ((String × String) × List ℚ)}
    {model v : String} :
    v ∈ mods_available table model ↔ (model, v) ∈ table.map Prod.fst := by
  constructor
  · intro h
    obtain ⟨e, he, hv⟩ := List.mem_map.mp h
    obtain ⟨he2, hm⟩ := List.mem_filter.mp he
    refine List.mem_map.mpr ⟨e, he2, ?_⟩
    have hm2 : e.1.1 = model := by simpa using hm
    calc e.1 = (e.1.1, e.1.2) := rfl
    _ = (model, v) := by rw [hm2, hv]
  · intro h
    obtain ⟨e, he, hk⟩ := List.mem_map.mp h
    refine List.mem_map.mpr ⟨e, List.mem_filter.mpr ⟨he, ?_⟩, ?_⟩
    · simp [hk]
    · rw [hk]

/-- C1: a (model, wing-variant) key missing from the table stops the run
when that variant is requested — missing Flatwing stops at `app.py`
lines 97-100, a missing directly selected variant stops at lines 456-458 —
and whenever `run_simulation` is invoked, every (model, variant) pair it
receives is a key of the table: no default configuration is ever
substituted. -/
theorem missing_config_is_fatal (table : List ((String × String) × List ℚ))
    (model : String) (wing : WingType) :
    (wing = WingType.flatwing → (model, "Flatwing") ∉ table.map Prod.fst →
      ∃ m, configGate table model wing = GateResult.stop m) ∧
    (wing = WingType.tamarack → (model, "Tamarack") ∉ table.map Prod.fst →
      ∃ m, configGate table model wing = GateResult.stop m) ∧
    (∀ sims, configGate table model wing = GateResult.run sims →
      ∀ p ∈ sims, p ∈ table.map Prod.fst) := by
  have hfindmem : ∀ e, table.find? (fun e => e.1 = (model, "Flatwing")) = some e →
      (model, "Flatwing") ∈ table.map Prod.fst := by
    intro e hfind
    have he := List.mem_of_find?_eq_some hfind
    have hp := List.find?_some hfind
    simp only [decide_eq_true_eq] at hp
    exact List.mem_map.mpr ⟨e, he, hp⟩
  refine ⟨?_, ?_, ?_⟩
  · rintro rfl hmiss
    simp only [configGate]
    by_cases hempty : (mods_available table model).isEmpty
    · simp [hempty]
    · cases hfind : table.find? (fun e => e.1 = (model, "Flatwing")) with
      | none => simp [hempty, hfind]
      | some e => exact absurd (hfindmem e hfind) hmiss
  · rintro rfl hmiss
    have hmods : "Tamarack" ∉ mods_available table model := fun h =>
      hmiss (mem_mods_available.mp h)
    simp only [configGate]
    by_cases hempty : (mods_available table model).isEmpty
    · simp [hempty]
    · cases hfind : table.find? (fun e => e.1 = (model, "Flatwing")) with
      | none => simp [hempty, hfind]
      | some e => simp [hempty, hfind, wingName, hmods]
  · intro sims hrun p hp
    simp only [configGate] at hrun
    by_cases hempty : (mods_available table model).isEmpty
    · simp [hempty] at hrun
    · rw [if_neg hempty] at hrun
      cases hfind : table.find? (fun e => e.1 = (model, "Flatwing")) with
      | none => rw [hfind] at hrun; simp at hrun
      | some e =>
        rw [hfind] at hrun
        by_cases hcond : wing ≠ WingType.comparison ∧ wingName wing ∉ mods_available table model
        · simp [hcond] at hrun
        · rw [if_neg hcond] at hrun
          push_neg at hcond
          cases wing with
          | comparison =>
            simp only [GateResult.run.injEq] at hrun
            rw [← hrun] at hp
            rcases List.mem_append.mp hp with h1 | h1
            · by_cases ht : "Tamarack" ∈ mods_available table model
              · rw [if_pos ht] at h1
                simp only [List.mem_singleton] at h1
                rw [h1]
                exact mem_mods_available.mp ht
              · rw [if_neg ht] at h1
                exact absurd h1 (List.not_mem_nil p)
            · by_cases hf : "Flatwing" ∈ mods_available table model
              · rw [if_pos hf] at h1
                simp only [List.mem_singleton] at h1
                rw [h1]
                exact mem_mods_available.mp hf
              · rw [if_neg hf] at h1
                exact absurd h1 (List.not_mem_nil p)
          | tamarack =>
            simp only [GateResult.run.injEq] at hrun
            rw [← hrun] at hp
            simp only [List.mem_singleton] at hp
            rw [hp]
            have ht : "Tamarack" ∈ mods_available table model := by
              have := hcond (by simp)
              simpa [wingName] using this
            exact mem_mods_available.mp ht
          | flatwing =>
            simp only [GateResult.run.injEq] at hrun
            rw [← hrun] at hp
            simp only [List.mem_singleton] at hp
            rw [hp]
            exact hfindmem e hfind

/-- Witness for C1: a table without the (CJ, Flatwing) key stops a
Flatwing request, a table without the (CJ, Tamarack) key stops a Tamarack
request, and a run produced by the gate only names keys of the table. -/
theorem missing_config_is_fatal_witness :
    (∃ m, configGate [(("CJ", "Tamarack"), ([] : List ℚ))] "CJ" WingType.flatwing =
      GateResult.stop m) ∧
    (∃ m, configGate [(("CJ", "Flatwing"), ([] : List ℚ))] "CJ" WingType.tamarack =
      GateResult.stop m) ∧
    (∀ p ∈ [("CJ", "Flatwing")],
      p ∈ ([(("CJ", "Flatwing"), ([] : List ℚ))].map Prod.fst)) := by
  have h1 := missing_config_is_fatal [(("CJ", "Tamarack"), ([] : List ℚ))] "CJ" WingType.flatwing
  have h2 := missing_config_is_fatal [(("CJ", "Flatwing"), ([] : List ℚ))] "CJ" WingType.tamarack
  have h3 := missing_config_is_fatal [(("CJ", "Flatwing"), ([] : List ℚ))] "CJ" WingType.flatwing
  refine ⟨h1.1 rfl (by simp), h2.2.1 rfl (by simp), h3.2.2 [("CJ", "Flatwing")] ?_⟩
  rfl

/-- C8: the unguarded dictionary lookup of `display_simulation_results`
fails for the application's default wind source "No Wind" and succeeds for
exactly the three sources named in the dictionary. -/
theorem no_wind_lookup_fails :
    default_winds_temps_source = "No Wind" ∧
    selectedWindsTemps default_winds_temps_source = Except.error "KeyError" ∧
    ∀ src, (∃ d, selectedWindsTemps src = Except.ok d) ↔
      (src = "Current Conditions" ∨ src = "Summer Average" ∨ src = "Winter Average") := by
  refine ⟨rfl, rfl, ?_⟩
  intro src
  constructor
  · rintro ⟨d, hd⟩
    unfold selectedWindsTemps at hd
    cases hfind : winds_temps_data.find? (fun e => e.1 = src) with
    | none => rw [hfind] at hd; simp at hd
    | some e =>
      have hp := List.find?_some hfind
      have hmem := List.mem_of_find?_eq_some hfind
      simp only [decide_eq_true_eq] at hp
      simp only [winds_temps_data, List.mem_cons, List.not_mem_nil, or_false] at hmem
      rcases hmem with rfl | rfl | rfl
      · exact Or.inl hp.symm
      · exact Or.inr (Or.inl hp.symm)
      · exact Or.inr (Or.inr hp.symm)
  · rintro (rfl | rfl | rfl)
    · exact ⟨_, rfl⟩
    · exact ⟨_, rfl⟩
    · exact ⟨_, rfl⟩

/-- Witness for C8: the lookup succeeds for "Summer Average". -/
theorem no_wind_lookup_fails_witness :
    ∃ d, selectedWindsTemps "Summer Average" = Except.ok d :=
  (no_wind_lookup_fails.2.2 "Summer Average").mpr (Or.inr (Or.inl rfl))

/-- In a strictly increasing list of naturals, every member is at most the
last element. -/
theorem le_of_mem_getLast_pairwise {l : List Nat} {m : Nat}
    (hp : l.Pairwise (fun a b => a < b)) (hl : l.getLast? = some m) :
    ∀ x ∈ l, x ≤ m := by
  induction l with
  | nil => simp at hl
  | cons a t ih =>
    intro x hx
    cases t with
    | nil =>
      simp only [List.getLast?_singleton, Option.some.injEq] at hl
      simp only [List.mem_singleton] at hx
      rw [hx, ← hl]
    | cons b t2 =>
      rw [List.getLast?_cons_cons] at hl
      rcases List.mem_cons.mp hx with rfl | hx2
      · have hm := List.mem_of_mem_getLast? hl
        exact le_of_lt ((List.pairwise_cons.mp hp).1 m hm)
      · exact ih (List.pairwise_cons.mp hp).2 hl x hx2

/-- An index belongs to `seg3Indices` exactly when the row at that index
exists and has segment id 3. -/
theorem mem_seg3Indices {data : List TrajSample} {j : Nat} :
    j ∈ seg3Indices data ↔ ∃ s, data.get? j = some s ∧ s.seg = 3 := by
  unfold seg3Indices
  rw [List.mem_filter, List.mem_range]
  constructor
  · rintro ⟨hj, hp⟩
    cases hs : data.get? j with
    | none => rw [hs] at hp; simp [Option.any] at hp
    | some s =>
      rw [hs] at hp
      simp only [Option.any, decide_eq_true_eq] at hp
      exact ⟨s, rfl, hp⟩
  · rintro ⟨s, hs, h3⟩
    refine ⟨(List.get?_eq_some.mp hs).1, ?_⟩
    rw [hs]
    simp [Option.any, h3]

/-- When the trajectory has a Segment-3 row, `end_idx` names a Segment-3
row and no later row has segment id 3. -/
theorem v1CutEndIdx_spec {data : List TrajSample}
    (h3 : ∃ j s, data.get? j = some s ∧ s.seg = 3) :
    (∃ s, data.get? (v1CutEndIdx data) = some s ∧ s.seg = 3) ∧
    (∀ j, v1CutEndIdx data < j → ∀ s, data.get? j = some s → s.seg ≠ 3) := by
  obtain ⟨j0, s0, hj0, h30⟩ := h3
  have hmem0 : j0 ∈ seg3Indices data := mem_seg3Indices.mpr ⟨s0, hj0, h30⟩
  obtain ⟨m, hm⟩ : ∃ m, (seg3Indices data).getLast? = some m := by
    cases hL : (seg3Indices data).getLast? with
    | none =>
      rw [List.getLast?_eq_none_iff] at hL
      rw [hL] at hmem0
      exact absurd hmem0 (List.not_mem_nil j0)
    | some m => exact ⟨m, rfl⟩
  have hEnd : v1CutEndIdx data = m := by rw [v1CutEndIdx, hm]; rfl
  have hmMem : m ∈ seg3Indices data := List.mem_of_mem_getLast? hm
  obtain ⟨s, hs, h3s⟩ := mem_seg3Indices.mp hmMem
  have hpair : (seg3Indices data).Pairwise (fun a b => a < b) :=
    List.Pairwise.filter _ (List.pairwise_lt_range _)
  constructor
  · exact ⟨s, by rw [hEnd]; exact hs, h3s⟩
  · intro j hj s2 hs2 h32
    have hjm : j ∈ seg3Indices data := mem_seg3Indices.mpr ⟨s2, hs2, h32⟩
    have hle := le_of_mem_getLast_pairwise hpair hm j hjm
    rw [hEnd] at hj
    exact absurd hle (not_le.mpr hj)

/-- The truncated trajectory is the prefix of the data up to `end_idx`
inclusive, and its last row is the row at `end_idx`. -/
theorem v1CutTruncate_getLast {data : List TrajSample} {s : TrajSample}
    (hs : data.get? (v1CutEndIdx data) = some s) :
    (v1CutTruncate data).getLast? = some s ∧
    v1CutTruncate data = data.take (v1CutEndIdx data + 1) := by
  have hlen : v1CutEndIdx data < data.length := (List.get?_eq_some.mp hs).1
  have hne : data ≠ [] := by
    intro h
    rw [h] at hlen
    simp at hlen
  have htr : v1CutTruncate data = data.take (v1CutEndIdx data + 1) := by
    unfold v1CutTruncate
    rw [if_neg (by simpa [List.isEmpty_iff] using hne)]
  refine ⟨?_, htr⟩
  rw [htr, List.getLast?_eq_get?]
  have hlen2 : (data.take (v1CutEndIdx data + 1)).length = v1CutEndIdx data + 1 := by
    rw [List.length_take]
    omega
  rw [hlen2, Nat.add_sub_cancel, List.get?_take_eq_if]
  rw [if_pos (Nat.lt_succ_self _)]
  exact hs

/-- C2: with the engine-out flag set, the trajectory handed to the display
layer is the prefix of the data ending exactly at the last Segment-3 row
(no later row has segment id 3), the modelled ResultsSummary carries the
"V1 Cut" marker with no climb/cruise/descent metrics populated, and the
display layer then suppresses the climb, cruise, descent and landing
sections. -/
theorem v1_cut_run_pipeline (data : List TrajSample) (climbM cruiseM descentM : ℚ)
    (h3 : ∃ j s, data.get? j = some s ∧ s.seg = 3) :
    (∃ s, data.get? (v1CutEndIdx data) = some s ∧ s.seg = 3 ∧
      (displayedTrajectory true data).getLast? = some s ∧
      displayedTrajectory true data = data.take (v1CutEndIdx data + 1)) ∧
    (∀ j, v1CutEndIdx data < j → ∀ s, data.get? j = some s → s.seg ≠ 3) ∧
    (specResultsSummary true climbM cruiseM descentM).v1Cut = true ∧
    (specResultsSummary true climbM cruiseM descentM).climbMetrics = none ∧
    (specResultsSummary true climbM cruiseM descentM).cruiseMetrics = none ∧
    (specResultsSummary true climbM cruiseM descentM).descentMetrics = none ∧
    DisplaySection.climb ∉
      displayedSections (specResultsSummary true climbM cruiseM descentM).v1Cut ∧
    DisplaySection.cruise ∉
      displayedSections (specResultsSummary true climbM cruiseM descentM).v1Cut ∧
    DisplaySection.descent ∉
      displayedSections (specResultsSummary true climbM cruiseM descentM).v1Cut ∧
    DisplaySection.landing ∉
      displayedSections (specResultsSummary true climbM cruiseM descentM).v1Cut := by
  obtain ⟨hex, hafter⟩ := v1CutEndIdx_spec h3
  obtain ⟨s, hs, h3s⟩ := hex
  obtain ⟨hlast, htake⟩ := v1CutTruncate_getLast hs
  refine ⟨⟨s, hs, h3s, ?_, ?_⟩, hafter, rfl, rfl, rfl, rfl, ?_, ?_, ?_, ?_⟩
  · simpa [displayedTrajectory] using hlast
  · simpa [displayedTrajectory] using htake
  · simp [displayedSections, specResultsSummary]
  · simp [displayedSections, specResultsSummary]
  · simp [displayedSections, specResultsSummary]
  · simp [displayedSections, specResultsSummary]

/-- Witness for C2: a four-row trajectory whose Segment-3 rows end at
index 2 is truncated there, and the V1 Cut marker suppresses the climb
section. -/
theorem v1_cut_run_pipeline_witness :
    (∃ s, ([⟨0, 10, 0, 0⟩, ⟨3, 9, 0, 0⟩, ⟨3, 8, 1, 1⟩, ⟨4, 7, 2, 2⟩] :
        List TrajSample).get?
        (v1CutEndIdx [⟨0, 10, 0, 0⟩, ⟨3, 9, 0, 0⟩, ⟨3, 8, 1, 1⟩, ⟨4, 7, 2, 2⟩]) = some s ∧
      s.seg = 3 ∧
      (displayedTrajectory true
        [⟨0, 10, 0, 0⟩, ⟨3, 9, 0, 0⟩, ⟨3, 8, 1, 1⟩, ⟨4, 7, 2, 2⟩]).getLast? = some s ∧
      displayedTrajectory true [⟨0, 10, 0, 0⟩, ⟨3, 9, 0, 0⟩, ⟨3, 8, 1, 1⟩, ⟨4, 7, 2, 2⟩] =
        ([⟨0, 10, 0, 0⟩, ⟨3, 9, 0, 0⟩, ⟨3, 8, 1, 1⟩, ⟨4, 7, 2, 2⟩] : List TrajSample).take
          (v1CutEndIdx [⟨0, 10, 0, 0⟩, ⟨3, 9, 0, 0⟩, ⟨3, 8, 1, 1⟩, ⟨4, 7, 2, 2⟩] + 1)) ∧
    DisplaySection.climb ∉ displayedSections (specResultsSummary true 1 2 3).v1Cut := by
  have h := v1_cut_run_pipeline
    [⟨0, 10, 0, 0⟩, ⟨3, 9, 0, 0⟩, ⟨3, 8, 1, 1⟩, ⟨4, 7, 2, 2⟩] 1 2 3
    ⟨1, ⟨3, 9, 0, 0⟩, rfl, rfl⟩
  exact ⟨h.1, h.2.2.2.2.2.2.1⟩

/-- Invariant of the modelled integrator loop: with a nonnegative
threshold, starting from an accumulator of nonnegative-fuel samples whose
newest sample sits at the current position, every emitted sample has
nonnegative fuel, and a fuel-exhaustion outcome carries the position of
the last sample of its trajectory. -/
theorem specIntegrate_invariant (threshold : ℚ) (h0 : 0 ≤ threshold) :
    ∀ (steps : List SimStep) (fuel lat lon : ℚ) (acc : List TrajSample),
      (∀ s ∈ acc, 0 ≤ s.fuel) →
      (∀ s, acc.head? = some s → s.lat = lat ∧ s.lon = lon) →
      acc ≠ [] →
      (∀ s ∈ simTraj (specIntegrate threshold fuel lat lon steps acc), 0 ≤ s.fuel) ∧
      (∀ la lo tr,
        specIntegrate threshold fuel lat lon steps acc = SimOutcome.fuelExhausted la lo tr →
        tr.getLast?.map (fun s => (s.lat, s.lon)) = some (la, lo)) := by
  intro steps
  induction steps with
  | nil =>
    intro fuel lat lon acc hacc _ _
    constructor
    · intro s hs
      simp only [specIntegrate, simTraj, List.mem_reverse] at hs
      exact hacc s hs
    · intro la lo tr htr
      simp [specIntegrate] at htr
  | cons step steps ih =>
    intro fuel lat lon acc hacc hhead hne
    by_cases hguard : fuel - step.burn ≤ threshold
    · constructor
      · intro s hs
        simp only [specIntegrate, if_pos hguard, simTraj, List.mem_reverse] at hs
        exact hacc s hs
      · intro la lo tr htr
        simp only [specIntegrate, if_pos hguard, SimOutcome.fuelExhausted.injEq] at htr
        obtain ⟨hla, hlo, htr2⟩ := htr
        rw [← htr2, List.getLast?_reverse]
        cases hh : acc.head? with
        | none =>
          rw [List.head?_eq_none_iff] at hh
          exact absurd hh hne
        | some s =>
          obtain ⟨hsla, hslo⟩ := hhead s hh
          simp [hsla, hslo, hla, hlo]
    · have hstep : specIntegrate threshold fuel lat lon (step :: steps) acc =
          specIntegrate threshold (fuel - step.burn) (lat + step.dlat) (lon + step.dlon)
            steps (⟨step.seg, fuel - step.burn, lat + step.dlat, lon + step.dlon⟩ :: acc) := by
        simp only [specIntegrate, if_neg hguard]
      rw [hstep]
      apply ih
      · intro s hs
        rcases List.mem_cons.mp hs with rfl | hs2
        · exact le_of_lt (lt_of_le_of_lt h0 (not_le.mp hguard))
        · exact hacc s hs2
      · intro s hsh
        simp only [List.head?_cons, Option.some.injEq] at hsh
        rw [← hsh]
        exact ⟨rfl, rfl⟩
      · simp

/-- C6: in the modelled engine, with a nonnegative reserve+taxi threshold
and nonnegative initial fuel, fuel remaining at every trajectory sample is
nonnegative, and a run cut short by the fuel threshold ends with a
fuel-exhaustion result carrying the position of the last valid sample. -/
theorem fuel_samples_nonneg (threshold fuel lat lon : ℚ) (steps : List SimStep)
    (h0 : 0 ≤ threshold) (h1 : 0 ≤ fuel) :
    (∀ s ∈ simTraj (specRun threshold fuel lat lon steps), 0 ≤ s.fuel) ∧
    (∀ la lo tr,
      specRun threshold fuel lat lon steps = SimOutcome.fuelExhausted la lo tr →
      tr.getLast?.map (fun s => (s.lat, s.lon)) = some (la, lo)) := by
  unfold specRun
  apply specIntegrate_invariant threshold h0 steps fuel lat lon
  · intro s hs
    simp only [List.mem_singleton] at hs
    rw [hs]
    exact h1
  · intro s hs
    simp only [List.head?_cons, Option.some.injEq] at hs
    rw [← hs]
    exact ⟨rfl, rfl⟩
  · simp

/-- Witness for C6: initial fuel 3440 lb against a 700 lb threshold, one
step burning 3000 lb — the run ends in fuel exhaustion at the start
position and every emitted sample has nonnegative fuel. -/
theorem fuel_samples_nonneg_witness :
    (∀ s ∈ simTraj (specRun 700 3440 47 (-116) [⟨4, 3000, 1, 1⟩]), 0 ≤ s.fuel) ∧
    (∀ la lo tr,
      specRun 700 3440 47 (-116) [⟨4, 3000, 1, 1⟩] = SimOutcome.fuelExhausted la lo tr →
      tr.getLast?.map (fun s => (s.lat, s.lon)) = some (la, lo)) :=
  fuel_samples_nonneg 700 3440 47 (-116) [⟨4, 3000, 1, 1⟩] (by norm_num) (by norm_num)

/-- Witness for C7: the first table entry (CJ Flatwing) has 35 fields and
consistent weight indices. -/
theorem aircraft_config_tuple_shape_witness :
    (AIRCRAFT_CONFIG.getD 0 (("", ""), [])).2.length = 35 ∧
    cfgBow (AIRCRAFT_CONFIG.getD 0 (("", ""), [])).2 ≤
      cfgMzfw (AIRCRAFT_CONFIG.getD 0 (("", ""), [])).2 ∧
    cfgMzfw (AIRCRAFT_CONFIG.getD 0 (("", ""), [])).2 ≤
      cfgMtow (AIRCRAFT_CONFIG.getD 0 (("", ""), [])).2 ∧
    cfgMtow (AIRCRAFT_CONFIG.getD 0 (("", ""), [])).2 ≤
      cfgMrw (AIRCRAFT_CONFIG.getD 0 (("", ""), [])).2 ∧
    0 < cfgMaxFuel (AIRCRAFT_CONFIG.getD 0 (("", ""), [])).2 :=
  aircraft_config_tuple_shape (AIRCRAFT_CONFIG.getD 0 (("", ""), []))
    (List.mem_cons_self _ _)

/-- Witness for C9: the first table entry (CJ Flatwing) has ordered limits
and fuel allowances within capacity. -/
theorem aircraft_config_limits_ordered_witness :
    cfgBow (AIRCRAFT_CONFIG.getD 0 (("", ""), [])).2 ≤
      cfgMzfw (AIRCRAFT_CONFIG.getD 0 (("", ""), [])).2 ∧
    cfgMzfw (AIRCRAFT_CONFIG.getD 0 (("", ""), [])).2 ≤
      cfgMtow (AIRCRAFT_CONFIG.getD 0 (("", ""), [])).2 ∧
    cfgMtow (AIRCRAFT_CONFIG.getD 0 (("", ""), [])).2 ≤
      cfgMrw (AIRCRAFT_CONFIG.getD 0 (("", ""), [])).2 ∧
    cfgTaxiFuel (AIRCRAFT_CONFIG.getD 0 (("", ""), [])).2 +
        cfgReserveFuel (AIRCRAFT_CONFIG.getD 0 (("", ""), [])).2 ≤
      cfgMaxFuel (AIRCRAFT_CONFIG.getD 0 (("", ""), [])).2 :=
  aircraft_config_limits_ordered (AIRCRAFT_CONFIG.getD 0 (("", ""), []))
    (List.mem_cons_self _ _)

/-- Witness for C10: the first turboprop entry (C208B) has a well-formed
efficiency curve, and its second efficiency breakpoint lies in [0, 1]. -/
theorem turboprop_eta_curves_wellformed_witness :
    (TURBOPROP_PARAMS.getD 0 ("", ⟨0, 0, 0, 0, 0, [], [], [], 0⟩)).2.eta_curve_J.length =
      (TURBOPROP_PARAMS.getD 0 ("", ⟨0, 0, 0, 0, 0, [], [], [], 0⟩)).2.eta_curve_eta.length ∧
    (TURBOPROP_PARAMS.getD 0 ("", ⟨0, 0, 0, 0, 0, [], [], [], 0⟩)).2.eta_curve_J.Chain'
      (fun a b => a < b) ∧
    (0 ≤ (TURBOPROP_PARAMS.getD 0
        ("", ⟨0, 0, 0, 0, 0, [], [], [], 0⟩)).2.eta_curve_eta.getD 1 0 ∧
      (TURBOPROP_PARAMS.getD 0
        ("", ⟨0, 0, 0, 0, 0, [], [], [], 0⟩)).2.eta_curve_eta.getD 1 0 ≤ 1) := by
  have h := turboprop_eta_curves_wellformed
    (TURBOPROP_PARAMS.getD 0 ("", ⟨0, 0, 0, 0, 0, [], [], [], 0⟩))
    (List.mem_cons_self _ _)
  refine ⟨h.1, h.2.1, h.2.2 _ ?_⟩
  exact List.mem_cons_of_mem _ (List.mem_cons_self _ _)
